import Mathlib

/-!
Shallow embedding of `src/zip_data.py`, a bulk tile downloader.

Bytes are modelled as `Nat` (values < 256 in practice), byte strings as
`List Nat`, Python `str` values as Lean `String`.  The filesystem state
relevant to one `download_tile` invocation is the destination file for the
tile's coordinate and its sibling `.part` temporary file; the network and
local-disk behaviour of each fetch attempt is an explicit environment
argument (`Attempt`), one per loop iteration.
-/

namespace ZipData

/-! ### Byte-level helpers (Python `bytes.lstrip`, `bytes.lower`) -/

/-- The six ASCII whitespace bytes stripped by Python `bytes.lstrip()`. -/
def isPySpace (b : Nat) : Bool :=
  b == 32 || b == 9 || b == 10 || b == 13 || b == 11 || b == 12

/-- ASCII lowercasing of a single byte, as Python `bytes.lower()` does. -/
def byteLower (b : Nat) : Nat :=
  if 65 ≤ b ∧ b ≤ 90 then b + 32 else b

/-! ### String-level helpers (Python `str` methods used by the source) -/

/-- ASCII lowercasing of a character, modelling Python `str.lower()` on the
ASCII content-type strings the source manipulates. -/
def pyCharLower (c : Char) : Char :=
  if c.toNat < 65 ∨ 90 < c.toNat then c else Char.ofNat (c.toNat + 32)

/-- Python `str.lower()` (ASCII fragment). -/
def strLower (s : String) : String :=
  ⟨s.data.map pyCharLower⟩

/-- The whitespace characters stripped by Python `str.strip()`. -/
def isPyWSChar (c : Char) : Bool :=
  c == ' ' || c == '\t' || c == '\n' || c == '\r' || c == '\x0b' || c == '\x0c'

/-- Python `str.strip()`. -/
def pyStrip (s : String) : String :=
  ⟨((s.data.dropWhile isPyWSChar).reverse.dropWhile isPyWSChar).reverse⟩

/-- Python `s.split(";")[0]`: the segment before the first semicolon. -/
def splitSemiHead (s : String) : String :=
  ⟨s.data.takeWhile (fun c => c ≠ ';')⟩

/-- Python truthiness-based `x or y` for an optional string `x` and a
default string `y`: `y` exactly when `x` is `None` or empty. -/
def pyOr (a : Option String) (b : String) : String :=
  match a with
  | some s => if s = "" then b else s
  | none => b

/-- Python `s.startswith(p)`, stated on character data. -/
def py_startswith (s p : String) : Bool :=
  p.data.isPrefixOf s.data

/-! ### Constants of the source -/

def SAVE_DIR : String := "zip-tiles"

def ACCEPTABLE_CT : List String :=
  ["application/x-protobuf", "application/octet-stream"]

/-! ### `tile_path`, `tile_exists_ok` -/

/-- `os.path.join(SAVE_DIR, str(z), str(x), f"{y}.pbf")`.  All components
after the root are decimal numerals, so the POSIX join is plain
concatenation with `/` separators. -/
def tile_path (z x y : Nat) : String :=
  SAVE_DIR ++ ("/" ++ (toString z ++ ("/" ++ (toString x ++ ("/" ++ (toString y ++ ".pbf"))))))

/-- The filesystem state relevant to one coordinate: the destination file
(`none` = absent, `some bytes` = present with that content) and whether the
sibling `.part` temporary file exists. -/
structure FS where
  destContent : Option (List Nat)
  tmpExists : Bool
deriving DecidableEq

/-- `os.path.isfile(p) and os.path.getsize(p) > 0` for the destination
file of the coordinate under consideration. -/
def tile_exists_ok (fs : FS) : Bool :=
  match fs.destContent with
  | some c => 0 < c.length
  | none => false

/-! ### `is_bad_mime`, `looks_like_html_or_json`, `log_failure` -/

/-- Source `is_bad_mime`: an empty content type, or one whose
parameter-stripped, trimmed, lowercased media type is not one of the two
accepted binary types, is bad.  (Defined by the source but never called.) -/
def is_bad_mime (ct : String) : Bool :=
  if ct = "" then true
  else !(ACCEPTABLE_CT.contains (strLower (pyStrip (splitSemiHead ct))))

/-- Byte encoding of the lowercase literal `<!doctype`. -/
def DOCTYPE_BYTES : List Nat := [60, 33, 100, 111, 99, 116, 121, 112, 101]

/-- Byte encoding of the lowercase literal `<html`. -/
def HTML_BYTES : List Nat := [60, 104, 116, 109, 108]

/-- Byte encoding of the literal `{`. -/
def LBRACE_BYTES : List Nat := [123]

/-- Source `looks_like_html_or_json`: lstrip leading whitespace, keep the
first 64 bytes, lowercase, and test the three poisoning markers. -/
def looks_like_html_or_json (b : List Nat) : Bool :=
  let s := ((b.dropWhile isPySpace).take 64).map byteLower
  DOCTYPE_BYTES.isPrefixOf s || HTML_BYTES.isPrefixOf s || LBRACE_BYTES.isPrefixOf s

/-- The line appended to the failure log by `log_failure`. -/
def log_failure (z x y : Nat) (reason : String) : String :=
  toString z ++ "/" ++ toString x ++ "/" ++ toString y ++ "  " ++ reason ++ "\n"

/-! ### `_fetch_once` and the per-attempt environment -/

/-- An HTTP response as delivered to `_fetch_once`: status code, the raw
`Content-Type` header (`none` when absent), and the body as the list of
chunks `iter_content` will yield. -/
structure RawResponse where
  status_code : Nat
  contentTypeHeader : Option String
  body : List (List Nat)
deriving DecidableEq

/-- What `session.get` does on one attempt: raise, or return a response. -/
inductive FetchBehavior where
  | raises (e : String)
  | returns (r : RawResponse)
deriving DecidableEq

/-- The environment of one loop iteration: the network behaviour and
whether local streaming/writing raises (`some detail`) or succeeds. -/
structure Attempt where
  fetch : FetchBehavior
  streamErr : Option String
deriving DecidableEq

/-- Source `_fetch_once`: on a non-200 status return `(None, "status:<code>",
None)`; on 200 return the response and its lowercased content type. -/
def _fetch_once (r : RawResponse) : Option RawResponse × Option String × Option String :=
  if r.status_code ≠ 200 then
    (none, some ("status:" ++ toString r.status_code), none)
  else
    (some r, none, some (strLower (r.contentTypeHeader.getD "")))

/-! ### The body of one iteration of the retry loop of `download_tile`
(source lines 97-139).  The first component is `some outcome` when the
iteration executes a `return`, `none` when it falls through to the retry
decision; the second is the updated `last_reason`; the third the updated
filesystem state. -/

/-- One iteration of the attempt loop of `download_tile`. -/
def attemptStep (a : Attempt) (last_reason : Option String) (fs : FS) :
    Option String × Option String × FS :=
  match a.fetch with
  | .raises e =>
      -- `except Exception as e:` sets `last_reason` and `r = None`; the
      -- subsequent `last_reason = last_reason or err or "request_failed"`
      -- short-circuits on the just-set non-empty reason.
      (none, some (pyOr (some ("request_error:" ++ e)) (pyOr none "request_failed")), fs)
  | .returns resp =>
      match _fetch_once resp with
      | (none, err, _) =>
          -- non-200 status: `r is None`, keep a previous reason if any
          (none, some (pyOr last_reason (pyOr err "request_failed")), fs)
      | (some r, _, ctOpt) =>
          let ct := ctOpt.getD ""
          let first_chunk := r.body.headD []
          if first_chunk = [] then
            -- empty body: remove a pre-existing temp file and return "empty"
            (some "empty", last_reason, { fs with tmpExists := false })
          else if looks_like_html_or_json first_chunk then
            -- poisoned payload: record the reason; the cleanup at source
            -- lines 133-134 removes the temp file if present
            (none, some ("html_or_json:" ++ (if ct = "" then "unknown" else ct)),
             { fs with tmpExists := false })
          else
            match a.streamErr with
            | some e =>
                -- exception while streaming: partial temp removed,
                -- destination untouched
                (none, some ("io_or_stream:" ++ e), { fs with tmpExists := false })
            | none =>
                -- all chunks written to the temp file (empty chunks are
                -- skipped by `if chunk:` and contribute nothing), then
                -- `os.replace` publishes it; a bounded sleep follows
                let content := r.body.flatten
                let fs' : FS := { destContent := some content, tmpExists := false }
                if content.length < 100 then
                  (some "saved", last_reason, fs')
                else
                  (some "saved", last_reason, fs')

/-- The result of running the attempt loop: `early` is `some outcome` when
some iteration returned, the final `last_reason`, the filesystem state, and
the number of iterations (= fetch attempts) executed. -/
structure LoopRes where
  early : Option String
  last : Option String
  fs : FS
  count : Nat
deriving DecidableEq

/-- The `for attempt in range(html_retries + 1)` loop of `download_tile`,
parameterized by the iteration body.  `attempt` is the current index,
`remaining` the number of iterations the range still allows.  Retrying
requires the current reason to start with `html_or_json` and the attempt
index to be below `html_retries`; otherwise the loop breaks. -/
def dtLoop (step : Attempt → Option String → FS → Option String × Option String × FS)
    (env : Nat → Attempt) (html_retries : Nat) :
    Nat → Nat → Option String → FS → LoopRes
  | _, 0, last, fs => ⟨none, last, fs, 0⟩
  | attempt, remaining + 1, last, fs =>
      match step (env attempt) last fs with
      | (some outcome, last', fs') => ⟨some outcome, last', fs', 1⟩
      | (none, last', fs') =>
          if py_startswith (last'.getD "") "html_or_json" ∧ attempt < html_retries then
            let r := dtLoop step env html_retries (attempt + 1) remaining last' fs'
            ⟨r.early, r.last, r.fs, r.count + 1⟩
          else
            ⟨none, last', fs', 1⟩

/-- The aggregate result of one `download_tile` invocation: the returned
outcome string, the final filesystem state, the number of fetch attempts
performed, and the failure-log lines appended. -/
structure RunResult where
  outcome : String
  fs : FS
  attempts : Nat
  log : List String
deriving DecidableEq

/-- Source `download_tile`: skip when the destination is present and
non-empty, otherwise run the attempt loop; when no iteration returned,
append one failure-log line and return "failed". -/
def download_tile (z x y : Nat) (html_retries : Nat) (env : Nat → Attempt) (fs : FS) :
    RunResult :=
  if tile_exists_ok fs then ⟨"skipped", fs, 0, []⟩
  else
    let r := dtLoop attemptStep env html_retries 0 (html_retries + 1) none fs
    match r.early with
    | some outcome => ⟨outcome, r.fs, r.count, []⟩
    | none => ⟨"failed", r.fs, r.count, [log_failure z x y (pyOr r.last "unknown")]⟩

/-! ### Spec-side uniform success path (for the refinement claim about the
vestigial `< 100` size branch).  `attemptStepUniform` follows the spec's
words: all non-empty, non-poisoned streamed bodies are treated uniformly as
`saved`, with no size test. -/

/-- The iteration body as the spec describes it: no size special-casing. -/
def attemptStepUniform (a : Attempt) (last_reason : Option String) (fs : FS) :
    Option String × Option String × FS :=
  match a.fetch with
  | .raises e =>
      (none, some (pyOr (some ("request_error:" ++ e)) (pyOr none "request_failed")), fs)
  | .returns resp =>
      match _fetch_once resp with
      | (none, err, _) =>
          (none, some (pyOr last_reason (pyOr err "request_failed")), fs)
      | (some r, _, ctOpt) =>
          let ct := ctOpt.getD ""
          let first_chunk := r.body.headD []
          if first_chunk = [] then
            (some "empty", last_reason, { fs with tmpExists := false })
          else if looks_like_html_or_json first_chunk then
            (none, some ("html_or_json:" ++ (if ct = "" then "unknown" else ct)),
             { fs with tmpExists := false })
          else
            match a.streamErr with
            | some e =>
                (none, some ("io_or_stream:" ++ e), { fs with tmpExists := false })
            | none =>
                let content := r.body.flatten
                (some "saved", last_reason, { destContent := some content, tmpExists := false })

/-- `download_tile` with the spec's uniform success path. -/
def download_tile_uniform (z x y : Nat) (html_retries : Nat) (env : Nat → Attempt) (fs : FS) :
    RunResult :=
  if tile_exists_ok fs then ⟨"skipped", fs, 0, []⟩
  else
    let r := dtLoop attemptStepUniform env html_retries 0 (html_retries + 1) none fs
    match r.early with
    | some outcome => ⟨outcome, r.fs, r.count, []⟩
    | none => ⟨"failed", r.fs, r.count, [log_failure z x y (pyOr r.last "unknown")]⟩

/-! ### Derived predicates used in the statements -/

/-- An attempt environment that delivers a poisoned payload: the request
returns a 200 response whose first chunk is non-empty and sniffs as
HTML/JSON. -/
def poisonedAttempt (a : Attempt) : Bool :=
  match a.fetch with
  | .raises _ => false
  | .returns r =>
      r.status_code == 200 && !(r.body.headD []).isEmpty &&
        looks_like_html_or_json (r.body.headD [])

/-- The `<content-type-or-unknown>` detail of a poisoning reason: the
lowercased `Content-Type` header, or `unknown` when absent or empty. -/
def ctReason (r : RawResponse) : String :=
  let c := strLower (r.contentTypeHeader.getD "")
  if c = "" then "unknown" else c

/-- The numeric value of a decimal digit string (used to invert
`Nat.repr`). -/
def digitsVal (cs : List Char) : Nat :=
  cs.foldl (fun a c => a * 10 + (c.toNat - 48)) 0

/-! ### String helper lemmas -/

theorem str_data_append (s t : String) : (s ++ t).data = s.data ++ t.data := rfl

theorem psw_request_error (e : String) :
    py_startswith ("request_error:" ++ e) "html_or_json" = false := rfl

theorem psw_io_or_stream (e : String) :
    py_startswith ("io_or_stream:" ++ e) "html_or_json" = false := rfl

theorem psw_status (e : String) :
    py_startswith ("status:" ++ e) "html_or_json" = false := rfl

theorem psw_html (s : String) :
    py_startswith ("html_or_json:" ++ s) "html_or_json" = true := rfl

theorem pyOr_none (b : String) : pyOr none b = b := rfl

theorem pyOr_req (e b : String) : pyOr (some ("request_error:" ++ e)) b = "request_error:" ++ e := rfl

theorem pyOr_io (e b : String) : pyOr (some ("io_or_stream:" ++ e)) b = "io_or_stream:" ++ e := rfl

theorem pyOr_statusR (e b : String) : pyOr (some ("status:" ++ e)) b = "status:" ++ e := rfl

theorem pyOr_html (s b : String) : pyOr (some ("html_or_json:" ++ s)) b = "html_or_json:" ++ s := rfl

theorem ctReason_psw (r : RawResponse) :
    py_startswith ("html_or_json:" ++ ctReason r) "html_or_json" = true := psw_html _

/-! ### `attemptStep` characterization lemmas -/

theorem attemptStep_raises (a : Attempt) (e : String) (h : a.fetch = .raises e)
    (last : Option String) (fs : FS) :
    attemptStep a last fs = (none, some ("request_error:" ++ e), fs) := by
  unfold attemptStep
  rw [h]
  rfl

theorem attemptStep_status (a : Attempt) (r : RawResponse) (h : a.fetch = .returns r)
    (hst : r.status_code ≠ 200) (last : Option String) (fs : FS) :
    attemptStep a last fs =
      (none, some (pyOr last ("status:" ++ toString r.status_code)), fs) := by
  unfold attemptStep
  rw [h]
  simp only [_fetch_once, if_pos hst]
  rfl

theorem attemptStep_empty (a : Attempt) (r : RawResponse) (h : a.fetch = .returns r)
    (hst : r.status_code = 200) (hch : r.body.headD [] = [])
    (last : Option String) (fs : FS) :
    attemptStep a last fs = (some "empty", last, ⟨fs.destContent, false⟩) := by
  unfold attemptStep
  rw [h]
  simp only [_fetch_once, hst, ne_eq, not_true_eq_false, if_false, hch]
  rfl

theorem attemptStep_poison (a : Attempt) (r : RawResponse) (h : a.fetch = .returns r)
    (hst : r.status_code = 200) (hch : r.body.headD [] ≠ [])
    (hlooks : looks_like_html_or_json (r.body.headD []) = true)
    (last : Option String) (fs : FS) :
    attemptStep a last fs =
      (none, some ("html_or_json:" ++ ctReason r), ⟨fs.destContent, false⟩) := by
  unfold attemptStep
  rw [h]
  simp only [_fetch_once, hst, ne_eq, not_true_eq_false, if_false, if_neg hch, hlooks, if_true]
  rfl

theorem attemptStep_ioerr (a : Attempt) (r : RawResponse) (e : String)
    (h : a.fetch = .returns r) (hst : r.status_code = 200) (hch : r.body.headD [] ≠ [])
    (hlooks : looks_like_html_or_json (r.body.headD []) = false)
    (hse : a.streamErr = some e) (last : Option String) (fs : FS) :
    attemptStep a last fs =
      (none, some ("io_or_stream:" ++ e), ⟨fs.destContent, false⟩) := by
  unfold attemptStep
  rw [h]
  simp only [_fetch_once, hst, ne_eq, not_true_eq_false, if_false, if_neg hch, hlooks,
    Bool.false_eq_true, hse]

theorem attemptStep_save (a : Attempt) (r : RawResponse)
    (h : a.fetch = .returns r) (hst : r.status_code = 200) (hch : r.body.headD [] ≠ [])
    (hlooks : looks_like_html_or_json (r.body.headD []) = false)
    (hse : a.streamErr = none) (last : Option String) (fs : FS) :
    attemptStep a last fs = (some "saved", last, ⟨some r.body.flatten, false⟩) := by
  unfold attemptStep
  rw [h]
  simp only [_fetch_once, hst, ne_eq, not_true_eq_false, if_false, if_neg hch, hlooks,
    Bool.false_eq_true, hse, ite_self]

/-- Case analysis of a returning iteration: an early `return` happens only
for `"empty"` or `"saved"`, always under a 200 response; a `"saved"` return
publishes exactly the flattened streamed body. -/
theorem attemptStep_early (a : Attempt) (last : Option String) (fs : FS) (o : String)
    (h : (attemptStep a last fs).1 = some o) :
    ∃ r, a.fetch = FetchBehavior.returns r ∧ r.status_code = 200 ∧
      (o = "empty" ∧ (attemptStep a last fs).2.2 = ⟨fs.destContent, false⟩ ∨
       o = "saved" ∧ r.body.headD [] ≠ [] ∧
         (attemptStep a last fs).2.2 = ⟨some r.body.flatten, false⟩) := by
  rcases a with ⟨f, se⟩
  cases f with
  | raises e =>
      rw [attemptStep_raises ⟨.raises e, se⟩ e rfl last fs] at h
      exact absurd h (by simp)
  | returns r =>
      by_cases hst : r.status_code = 200
      · by_cases hch : r.body.headD [] = []
        · rw [attemptStep_empty ⟨.returns r, se⟩ r rfl hst hch last fs] at h ⊢
          exact ⟨r, rfl, hst, Or.inl ⟨by simpa using h.symm, rfl⟩⟩
        · by_cases hlooks : looks_like_html_or_json (r.body.headD []) = true
          · rw [attemptStep_poison ⟨.returns r, se⟩ r rfl hst hch hlooks last fs] at h
            exact absurd h (by simp)
          · rw [Bool.not_eq_true] at hlooks
            cases se with
            | some e =>
                rw [attemptStep_ioerr ⟨.returns r, some e⟩ r e rfl hst hch hlooks
                  rfl last fs] at h
                exact absurd h (by simp)
            | none =>
                rw [attemptStep_save ⟨.returns r, none⟩ r rfl hst hch hlooks
                  rfl last fs] at h ⊢
                exact ⟨r, rfl, hst, Or.inr ⟨by simpa using h.symm, hch, rfl⟩⟩
      · rw [attemptStep_status ⟨.returns r, se⟩ r rfl hst last fs] at h
        exact absurd h (by simp)

/-- An iteration never changes the destination file unless it returns
`"saved"`. -/
theorem attemptStep_dest (a : Attempt) (last : Option String) (fs : FS) :
    (attemptStep a last fs).2.2.destContent = fs.destContent ∨
      (attemptStep a last fs).1 = some "saved" := by
  rcases a with ⟨f, se⟩
  cases f with
  | raises e => rw [attemptStep_raises ⟨.raises e, se⟩ e rfl last fs]; exact Or.inl rfl
  | returns r =>
      by_cases hst : r.status_code = 200
      · by_cases hch : r.body.headD [] = []
        · rw [attemptStep_empty ⟨.returns r, se⟩ r rfl hst hch last fs]; exact Or.inl rfl
        · by_cases hlooks : looks_like_html_or_json (r.body.headD []) = true
          · rw [attemptStep_poison ⟨.returns r, se⟩ r rfl hst hch hlooks last fs]
            exact Or.inl rfl
          · rw [Bool.not_eq_true] at hlooks
            cases se with
            | some e =>
                rw [attemptStep_ioerr ⟨.returns r, some e⟩ r e rfl hst hch hlooks
                  rfl last fs]
                exact Or.inl rfl
            | none =>
                rw [attemptStep_save ⟨.returns r, none⟩ r rfl hst hch hlooks
                  rfl last fs]
                exact Or.inr rfl
      · rw [attemptStep_status ⟨.returns r, se⟩ r rfl hst last fs]; exact Or.inl rfl

/-! ### Loop lemmas -/

/-- Unfolding: the loop with no remaining iterations does nothing. -/
theorem dtLoop_zero (step : Attempt → Option String → FS → Option String × Option String × FS)
    (env : Nat → Attempt) (hr attempt : Nat) (last : Option String) (fs : FS) :
    dtLoop step env hr attempt 0 last fs = ⟨none, last, fs, 0⟩ := rfl

/-- Unfolding: an iteration that returns ends the loop with one attempt. -/
theorem dtLoop_return (step : Attempt → Option String → FS → Option String × Option String × FS)
    (env : Nat → Attempt) (hr attempt rem : Nat) (last : Option String) (fs : FS)
    (o : String) (last' : Option String) (fs' : FS)
    (h : step (env attempt) last fs = (some o, last', fs')) :
    dtLoop step env hr attempt (rem + 1) last fs = ⟨some o, last', fs', 1⟩ := by
  unfold dtLoop
  rw [h]

/-- Unfolding: a non-returning iteration whose updated reason is not a
poisoning reason (or whose attempt index has reached the limit) breaks. -/
theorem dtLoop_break (step : Attempt → Option String → FS → Option String × Option String × FS)
    (env : Nat → Attempt) (hr attempt rem : Nat) (last : Option String) (fs : FS)
    (last' : Option String) (fs' : FS)
    (h : step (env attempt) last fs = (none, last', fs'))
    (hcond : ¬(py_startswith (last'.getD "") "html_or_json" = true ∧ attempt < hr)) :
    dtLoop step env hr attempt (rem + 1) last fs = ⟨none, last', fs', 1⟩ := by
  unfold dtLoop
  rw [h]
  simp only [if_neg hcond]

/-- Unfolding: a non-returning iteration with a poisoning reason and
attempts to spare recurses. -/
theorem dtLoop_retry (step : Attempt → Option String → FS → Option String × Option String × FS)
    (env : Nat → Attempt) (hr attempt rem : Nat) (last : Option String) (fs : FS)
    (last' : Option String) (fs' : FS)
    (h : step (env attempt) last fs = (none, last', fs'))
    (hpsw : py_startswith (last'.getD "") "html_or_json" = true) (hlt : attempt < hr) :
    dtLoop step env hr attempt (rem + 1) last fs =
      ⟨(dtLoop step env hr (attempt + 1) rem last' fs').early,
       (dtLoop step env hr (attempt + 1) rem last' fs').last,
       (dtLoop step env hr (attempt + 1) rem last' fs').fs,
       (dtLoop step env hr (attempt + 1) rem last' fs').count + 1⟩ := by
  conv_lhs => rw [dtLoop]
  rw [h]
  simp only [if_pos (And.intro hpsw hlt)]

/-- A poisoned attempt makes the iteration fall through with an
`html_or_json:*` reason, removing the temporary file and leaving the
destination untouched. -/
theorem attemptStep_of_poisoned (a : Attempt) (hp : poisonedAttempt a = true)
    (last : Option String) (fs : FS) :
    ∃ r, a.fetch = FetchBehavior.returns r ∧
      attemptStep a last fs =
        (none, some ("html_or_json:" ++ ctReason r), ⟨fs.destContent, false⟩) := by
  rcases a with ⟨f, se⟩
  cases f with
  | raises e => simp [poisonedAttempt] at hp
  | returns r =>
      simp only [poisonedAttempt, Bool.and_eq_true, beq_iff_eq, Bool.not_eq_true'] at hp
      obtain ⟨⟨hst, hch⟩, hlooks⟩ := hp
      have hch' : r.body.headD [] ≠ [] := by
        intro hnil
        rw [hnil] at hch
        simp at hch
      exact ⟨r, rfl, attemptStep_poison ⟨.returns r, se⟩ r rfl hst hch' hlooks last fs⟩

/-- If every attempt environment is poisoned, the loop runs through all its
remaining iterations, finishes with an `html_or_json:*` reason, removes the
temporary file, leaves the destination untouched, and performs exactly
`k + 1` attempts. -/
theorem dtLoop_all_poisoned (env : Nat → Attempt) (hr : Nat)
    (hp : ∀ i, poisonedAttempt (env i) = true) :
    ∀ (k attempt : Nat) (last : Option String) (fs : FS), attempt + k = hr →
      ∃ s, dtLoop attemptStep env hr attempt (k + 1) last fs =
        ⟨none, some ("html_or_json:" ++ s), ⟨fs.destContent, false⟩, k + 1⟩ := by
  intro k
  induction k with
  | zero =>
      intro attempt last fs hsum
      obtain ⟨r, _, hstep⟩ := attemptStep_of_poisoned (env attempt) (hp attempt) last fs
      refine ⟨ctReason r, ?_⟩
      exact dtLoop_break attemptStep env hr attempt 0 last fs _ _ hstep
        (by rintro ⟨-, hlt⟩; omega)
  | succ k ih =>
      intro attempt last fs hsum
      obtain ⟨r, _, hstep⟩ := attemptStep_of_poisoned (env attempt) (hp attempt) last fs
      have hlt : attempt < hr := by omega
      obtain ⟨s, hrec⟩ := ih (attempt + 1)
        (some ("html_or_json:" ++ ctReason r)) ⟨fs.destContent, false⟩ (by omega)
      refine ⟨s, ?_⟩
      rw [dtLoop_retry attemptStep env hr attempt (k + 1) last fs _ _ hstep
        (by simpa using psw_html (ctReason r)) hlt, hrec]

/-- Whenever the loop ends with an early return, the outcome is `"saved"`
or `"empty"` and some attempt received a 200 response. -/
theorem dtLoop_early_200 (env : Nat → Attempt) (hr : Nat) :
    ∀ (rem attempt : Nat) (last : Option String) (fs : FS) (o : String),
      (dtLoop attemptStep env hr attempt rem last fs).early = some o →
      (o = "saved" ∨ o = "empty") ∧
        ∃ i r, (env i).fetch = FetchBehavior.returns r ∧ r.status_code = 200 := by
  intro rem
  induction rem with
  | zero =>
      intro attempt last fs o h
      rw [dtLoop_zero] at h
      exact absurd h (by simp)
  | succ rem ih =>
      intro attempt last fs o h
      rcases hstep : attemptStep (env attempt) last fs with ⟨e1, l1, f1⟩
      cases e1 with
      | some o' =>
          rw [dtLoop_return attemptStep env hr attempt rem last fs o' l1 f1 hstep] at h
          have ho : o' = o := by simpa using h
          subst ho
          obtain ⟨r, hret, hst, hcase⟩ := attemptStep_early (env attempt) last fs o'
            (by rw [hstep])
          refine ⟨?_, attempt, r, hret, hst⟩
          rcases hcase with ⟨ho, -⟩ | ⟨ho, -⟩
          · exact Or.inr ho
          · exact Or.inl ho
      | none =>
          by_cases hcond : py_startswith (l1.getD "") "html_or_json" = true ∧ attempt < hr
          · rw [dtLoop_retry attemptStep env hr attempt rem last fs l1 f1 hstep
              hcond.1 hcond.2] at h
            exact ih (attempt + 1) l1 f1 o h
          · rw [dtLoop_break attemptStep env hr attempt rem last fs l1 f1 hstep hcond] at h
            exact absurd h (by simp)

/-- The loop ends `"saved"` exactly when some attempt delivered a full
non-empty, non-poisoned body, and then the final filesystem state is that
body published at the destination with the temp file gone; in every other
case the destination content is untouched. -/
theorem dtLoop_saved_dest (env : Nat → Attempt) (hr : Nat) :
    ∀ (rem attempt : Nat) (last : Option String) (fs : FS),
      ((dtLoop attemptStep env hr attempt rem last fs).early = some "saved" →
        ∃ i r, (env i).fetch = FetchBehavior.returns r ∧ r.status_code = 200 ∧
          r.body.headD [] ≠ [] ∧
          (dtLoop attemptStep env hr attempt rem last fs).fs =
            ⟨some r.body.flatten, false⟩) ∧
      ((dtLoop attemptStep env hr attempt rem last fs).early ≠ some "saved" →
        (dtLoop attemptStep env hr attempt rem last fs).fs.destContent =
          fs.destContent) := by
  intro rem
  induction rem with
  | zero =>
      intro attempt last fs
      rw [dtLoop_zero]
      exact ⟨by simp, fun _ => rfl⟩
  | succ rem ih =>
      intro attempt last fs
      rcases hstep : attemptStep (env attempt) last fs with ⟨e1, l1, f1⟩
      cases e1 with
      | some o' =>
          rw [dtLoop_return attemptStep env hr attempt rem last fs o' l1 f1 hstep]
          constructor
          · intro h
            obtain rfl : o' = "saved" := by simpa using h
            obtain ⟨r, hret, hst, hcase⟩ := attemptStep_early (env attempt) last fs "saved"
              (by rw [hstep])
            rcases hcase with ⟨ho, -⟩ | ⟨-, hch, hfs⟩
            · exact absurd ho (by decide)
            · rw [hstep] at hfs
              exact ⟨attempt, r, hret, hst, hch, hfs⟩
          · intro h
            have hne : o' ≠ "saved" := fun hx => h (by simp [hx])
            rcases attemptStep_dest (env attempt) last fs with hdest | hsaved
            · rw [hstep] at hdest
              exact hdest
            · rw [hstep] at hsaved
              exact absurd (by simpa using hsaved) hne
      | none =>
          have hdest : f1.destContent = fs.destContent := by
            rcases attemptStep_dest (env attempt) last fs with hdest | hsaved
            · rw [hstep] at hdest
              exact hdest
            · rw [hstep] at hsaved
              exact absurd hsaved (by simp)
          by_cases hcond : py_startswith (l1.getD "") "html_or_json" = true ∧ attempt < hr
          · rw [dtLoop_retry attemptStep env hr attempt rem last fs l1 f1 hstep
              hcond.1 hcond.2]
            obtain ⟨ih1, ih2⟩ := ih (attempt + 1) l1 f1
            constructor
            · intro h
              exact ih1 h
            · intro h
              rw [ih2 h, hdest]
          · rw [dtLoop_break attemptStep env hr attempt rem last fs l1 f1 hstep hcond]
            exact ⟨by simp, fun _ => hdest⟩

/-! ### Decimal representation: `Nat.repr` is injective and slash-free -/

theorem digitChar_sub : ∀ k, k < 10 → (Nat.digitChar k).toNat - 48 = k := by decide

theorem digitChar_ne_slash : ∀ k, k < 10 → Nat.digitChar k ≠ '/' := by decide

theorem toDigitsCore_append :
    ∀ (fuel n : Nat) (ds : List Char),
      Nat.toDigitsCore 10 fuel n ds = Nat.toDigitsCore 10 fuel n [] ++ ds := by
  intro fuel
  induction fuel with
  | zero => intro n ds; simp [Nat.toDigitsCore]
  | succ f ih =>
      intro n ds
      simp only [Nat.toDigitsCore]
      by_cases h0 : n / 10 = 0
      · simp [h0]
      · rw [if_neg h0, if_neg h0, ih (n / 10) (Nat.digitChar (n % 10) :: ds),
          ih (n / 10) [Nat.digitChar (n % 10)], List.append_assoc]
        rfl

theorem digitsVal_append (l : List Char) (c : Char) :
    digitsVal (l ++ [c]) = digitsVal l * 10 + (c.toNat - 48) := by
  simp [digitsVal, List.foldl_append]

theorem toDigitsCore_val :
    ∀ (fuel n : Nat), n < 10 ^ fuel → digitsVal (Nat.toDigitsCore 10 fuel n []) = n := by
  intro fuel
  induction fuel with
  | zero =>
      intro n h
      simp only [pow_zero, Nat.lt_one_iff] at h
      subst h
      rfl
  | succ f ih =>
      intro n h
      simp only [Nat.toDigitsCore]
      by_cases h0 : n / 10 = 0
      · have hn : n < 10 := (Nat.div_eq_zero_iff (by norm_num)).mp h0
        rw [if_pos h0]
        show digitsVal [Nat.digitChar (n % 10)] = n
        rw [show digitsVal [Nat.digitChar (n % 10)] =
            (Nat.digitChar (n % 10)).toNat - 48 by simp [digitsVal]]
        rw [digitChar_sub (n % 10) (Nat.mod_lt _ (by norm_num))]
        exact Nat.mod_eq_of_lt hn
      · rw [if_neg h0, toDigitsCore_append, digitsVal_append]
        have hdiv : n / 10 < 10 ^ f := by
          rw [Nat.div_lt_iff_lt_mul (by norm_num)]
          calc n < 10 ^ (f + 1) := h
          _ = 10 ^ f * 10 := by ring
        rw [ih (n / 10) hdiv, digitChar_sub (n % 10) (Nat.mod_lt _ (by norm_num))]
        omega

theorem digitsVal_toDigits (n : Nat) : digitsVal (Nat.toDigits 10 n) = n := by
  have h1 : n < 10 ^ (n + 1) := by
    calc n < 10 ^ n := Nat.lt_pow_self (by norm_num) n
    _ ≤ 10 ^ (n + 1) := Nat.pow_le_pow_right (by norm_num) (Nat.le_succ n)
  exact toDigitsCore_val (n + 1) n h1

theorem natRepr_inj {n m : Nat} (h : Nat.repr n = Nat.repr m) : n = m := by
  have hd : Nat.toDigits 10 n = Nat.toDigits 10 m := by
    have := congrArg String.data h
    simpa [Nat.repr, List.asString] using this
  calc n = digitsVal (Nat.toDigits 10 n) := (digitsVal_toDigits n).symm
  _ = digitsVal (Nat.toDigits 10 m) := by rw [hd]
  _ = m := digitsVal_toDigits m

theorem toDigitsCore_mem :
    ∀ (fuel n : Nat) (ds : List Char) (c : Char),
      c ∈ Nat.toDigitsCore 10 fuel n ds →
      c ∈ ds ∨ ∃ k, k < 10 ∧ c = Nat.digitChar k := by
  intro fuel
  induction fuel with
  | zero => intro n ds c h; exact Or.inl h
  | succ f ih =>
      intro n ds c h
      simp only [Nat.toDigitsCore] at h
      by_cases h0 : n / 10 = 0
      · rw [if_pos h0] at h
        rcases List.mem_cons.mp h with hc | hds
        · exact Or.inr ⟨n % 10, Nat.mod_lt _ (by norm_num), hc⟩
        · exact Or.inl hds
      · rw [if_neg h0] at h
        rcases ih (n / 10) (Nat.digitChar (n % 10) :: ds) c h with hds | hd
        · rcases List.mem_cons.mp hds with hc | hds'
          · exact Or.inr ⟨n % 10, Nat.mod_lt _ (by norm_num), hc⟩
          · exact Or.inl hds'
        · exact Or.inr hd

theorem natRepr_no_slash (n : Nat) : '/' ∉ (Nat.repr n).data := by
  intro hmem
  have hm : '/' ∈ Nat.toDigits 10 n := by simpa [Nat.repr, List.asString] using hmem
  rcases toDigitsCore_mem (n + 1) n [] '/' hm with h | ⟨k, hk, he⟩
  · simp at h
  · exact digitChar_ne_slash k hk he.symm

/-- Splitting concatenations at a separator that occurs in neither left
part recovers the two parts. -/
theorem sep_split :
    ∀ (A1 A2 B1 B2 : List Char),
      A1 ++ '/' :: B1 = A2 ++ '/' :: B2 → '/' ∉ A1 → '/' ∉ A2 →
      A1 = A2 ∧ B1 = B2 := by
  intro A1
  induction A1 with
  | nil =>
      intro A2 B1 B2 h h1 h2
      cases A2 with
      | nil => simpa using h
      | cons c A2' =>
          rw [List.nil_append, List.cons_append] at h
          injection h with hc htl
          exact absurd (List.mem_cons.mpr (Or.inl hc)) h2
  | cons a A1' ih =>
      intro A2 B1 B2 h h1 h2
      cases A2 with
      | nil =>
          rw [List.nil_append, List.cons_append] at h
          injection h with hc htl
          exact absurd (List.mem_cons.mpr (Or.inl hc.symm)) h1
      | cons c A2' =>
          rw [List.cons_append, List.cons_append] at h
          injection h with hac htl
          obtain ⟨hA, hB⟩ := ih A2' B1 B2 htl
            (fun hx => h1 (List.mem_cons.mpr (Or.inr hx)))
            (fun hx => h2 (List.mem_cons.mpr (Or.inr hx)))
          exact ⟨by rw [hac, hA], hB⟩

theorem toStr_natRepr (n : Nat) : toString n = Nat.repr n := rfl

/-! ### Take-64 irrelevance for the poisoning markers -/

theorem isPrefixOf_take :
    ∀ (p l : List Nat) (n : Nat), p.length ≤ n →
      p.isPrefixOf (l.take n) = p.isPrefixOf l := by
  intro p
  induction p with
  | nil => intro l n h; simp [List.isPrefixOf]
  | cons a p' ih =>
      intro l n h
      cases l with
      | nil => simp
      | cons b l' =>
          cases n with
          | zero => simp at h
          | succ m =>
              show (a == b && p'.isPrefixOf (l'.take m)) = (a == b && p'.isPrefixOf l')
              rw [ih l' m (by simpa using h)]

/-! ### Driver lemmas for `download_tile` -/

theorem download_tile_early (z x y hr : Nat) (env : Nat → Attempt) (fs : FS)
    (o : String) (l : Option String) (f : FS) (c : Nat)
    (h : tile_exists_ok fs = false)
    (hloop : dtLoop attemptStep env hr 0 (hr + 1) none fs = ⟨some o, l, f, c⟩) :
    download_tile z x y hr env fs = ⟨o, f, c, []⟩ := by
  simp only [download_tile, h, Bool.false_eq_true, if_false, hloop]

theorem download_tile_exhaust (z x y hr : Nat) (env : Nat → Attempt) (fs : FS)
    (l : Option String) (f : FS) (c : Nat)
    (h : tile_exists_ok fs = false)
    (hloop : dtLoop attemptStep env hr 0 (hr + 1) none fs = ⟨none, l, f, c⟩) :
    download_tile z x y hr env fs =
      ⟨"failed", f, c, [log_failure z x y (pyOr l "unknown")]⟩ := by
  simp only [download_tile, h, Bool.false_eq_true, if_false, hloop]

/-! ### Claim theorems -/

/-- C1.  Retry bound: when every fetch attempt yields a poisoned payload
(non-empty first chunk that sniffs as HTML/JSON under a 200 status),
`download_tile` performs exactly `1 + html_retries` attempts, finalizes
`"failed"` with a reason beginning `html_or_json:`, and appends exactly one
failure-log line for the coordinate. -/
theorem retry_bound_all_poisoned (z x y hr : Nat) (env : Nat → Attempt) (fs : FS)
    (hfs : tile_exists_ok fs = false)
    (hp : ∀ i, poisonedAttempt (env i) = true) :
    ∃ s, download_tile z x y hr env fs =
      ⟨"failed", ⟨fs.destContent, false⟩, hr + 1,
       [log_failure z x y ("html_or_json:" ++ s)]⟩ := by
  obtain ⟨s, hloop⟩ := dtLoop_all_poisoned env hr hp hr 0 none fs (Nat.zero_add hr)
  refine ⟨s, ?_⟩
  rw [download_tile_exhaust z x y hr env fs _ _ _ hfs hloop, pyOr_html]

/-- C1 witness: with the default `html_retries = 3` and a server that always
answers 200 with a JSON body, the run makes 4 attempts, fails with an
`html_or_json:` reason, and logs one line. -/
theorem retry_bound_all_poisoned_witness :
    ∃ s, download_tile 3 1 1 3
        (fun _ => ⟨.returns ⟨200, some "text/html", [[123]]⟩, none⟩) ⟨none, false⟩ =
      ⟨"failed", ⟨none, false⟩, 4, [log_failure 3 1 1 ("html_or_json:" ++ s)]⟩ :=
  retry_bound_all_poisoned 3 1 1 3
    (fun _ => ⟨.returns ⟨200, some "text/html", [[123]]⟩, none⟩) ⟨none, false⟩
    (by decide)
    (fun _ =>
      (by decide :
        poisonedAttempt ⟨.returns ⟨200, some "text/html", [[123]]⟩, none⟩ = true))

/-- C2 counterexample.  Attempt 0 is poisoned; attempt 1 fails with a
non-poisoning `status:503`.  The claim predicts that the status failure at
attempt 1 ends the run (2 attempts total) with reason `status:503`; the
code instead keeps the stale `html_or_json:text/html` reason (because
`last_reason = last_reason or err or ...` does not overwrite a previously
set reason), so it retries twice more: 4 attempts, and the logged reason is
the stale poisoning reason. -/
theorem status_failure_retried_after_poisoning_cex :
    download_tile 3 1 1 3
        (fun i => if i = 0 then ⟨.returns ⟨200, some "text/html", [[123]]⟩, none⟩
                  else ⟨.returns ⟨503, none, []⟩, none⟩) ⟨none, false⟩ =
      ⟨"failed", ⟨none, false⟩, 4, [log_failure 3 1 1 "html_or_json:text/html"]⟩ ∧
    (download_tile 3 1 1 3
        (fun i => if i = 0 then ⟨.returns ⟨200, some "text/html", [[123]]⟩, none⟩
                  else ⟨.returns ⟨503, none, []⟩, none⟩) ⟨none, false⟩).attempts ≠ 2 ∧
    (download_tile 3 1 1 3
        (fun i => if i = 0 then ⟨.returns ⟨200, some "text/html", [[123]]⟩, none⟩
                  else ⟨.returns ⟨503, none, []⟩, none⟩) ⟨none, false⟩).log ≠
      [log_failure 3 1 1 "status:503"] := by
  refine ⟨by decide, by decide, ?_⟩
  decide

/-- C2 amended.  A request exception or a stream I/O error always breaks
the loop after its single attempt (their reasons overwrite `last_reason`
and are not poisoning reasons); a non-poisoning status failure breaks the
loop only when no earlier attempt left a poisoning reason — in particular
always on the first attempt, where the run finalizes `"failed"` with
reason `status:<code>` after exactly one attempt. -/
theorem nonpoisoning_failure_no_retry (hr : Nat) (env : Nat → Attempt) :
    (∀ (attempt rem : Nat) (last : Option String) (fs : FS) (e : String),
       (env attempt).fetch = FetchBehavior.raises e →
       dtLoop attemptStep env hr attempt (rem + 1) last fs =
         ⟨none, some ("request_error:" ++ e), fs, 1⟩) ∧
    (∀ (attempt rem : Nat) (last : Option String) (fs : FS) (r : RawResponse) (e : String),
       (env attempt).fetch = FetchBehavior.returns r →
       r.status_code = 200 → r.body.headD [] ≠ [] →
       looks_like_html_or_json (r.body.headD []) = false →
       (env attempt).streamErr = some e →
       dtLoop attemptStep env hr attempt (rem + 1) last fs =
         ⟨none, some ("io_or_stream:" ++ e), ⟨fs.destContent, false⟩, 1⟩) ∧
    (∀ (z x y : Nat) (fs : FS) (r : RawResponse),
       tile_exists_ok fs = false →
       (env 0).fetch = FetchBehavior.returns r → r.status_code ≠ 200 →
       download_tile z x y hr env fs =
         ⟨"failed", fs, 1, [log_failure z x y ("status:" ++ toString r.status_code)]⟩) := by
  refine ⟨?_, ?_, ?_⟩
  · intro attempt rem last fs e h
    exact dtLoop_break attemptStep env hr attempt rem last fs _ _
      (attemptStep_raises (env attempt) e h last fs)
      (by simp [psw_request_error])
  · intro attempt rem last fs r e h hst hch hlooks hse
    exact dtLoop_break attemptStep env hr attempt rem last fs _ _
      (attemptStep_ioerr (env attempt) r e h hst hch hlooks hse last fs)
      (by simp [psw_io_or_stream])
  · intro z x y fs r hfs h hst
    have hstep : attemptStep (env 0) none fs =
        (none, some ("status:" ++ toString r.status_code), fs) := by
      rw [attemptStep_status (env 0) r h hst none fs, pyOr_none]
    have hloop := dtLoop_break attemptStep env hr 0 hr none fs _ _ hstep
      (by simp [psw_status])
    rw [download_tile_exhaust z x y hr env fs _ _ _ hfs hloop, pyOr_statusR]

/-- C2 amended witness: one request exception, one stream I/O error, and a
first-attempt 404 each terminate after a single attempt with the matching
reason. -/
theorem nonpoisoning_failure_no_retry_witness :
    dtLoop attemptStep (fun _ => ⟨.raises "boom", none⟩) 3 0 4 none ⟨none, false⟩ =
      ⟨none, some "request_error:boom", ⟨none, false⟩, 1⟩ ∧
    dtLoop attemptStep (fun _ => ⟨.returns ⟨200, some "x", [[80, 75]]⟩, some "disk full"⟩)
        3 0 4 none ⟨none, true⟩ =
      ⟨none, some "io_or_stream:disk full", ⟨none, false⟩, 1⟩ ∧
    download_tile 1 2 3 3 (fun _ => ⟨.returns ⟨404, none, []⟩, none⟩) ⟨none, false⟩ =
      ⟨"failed", ⟨none, false⟩, 1, [log_failure 1 2 3 "status:404"]⟩ :=
  ⟨(nonpoisoning_failure_no_retry 3 (fun _ => ⟨.raises "boom", none⟩)).1
      0 3 none ⟨none, false⟩ "boom" rfl,
   (nonpoisoning_failure_no_retry 3
      (fun _ => ⟨.returns ⟨200, some "x", [[80, 75]]⟩, some "disk full"⟩)).2.1
      0 3 none ⟨none, true⟩ ⟨200, some "x", [[80, 75]]⟩ "disk full" rfl rfl
      (by decide) (by decide) rfl,
   (nonpoisoning_failure_no_retry 3 (fun _ => ⟨.returns ⟨404, none, []⟩, none⟩)).2.2
      1 2 3 ⟨none, false⟩ ⟨404, none, []⟩ (by decide) rfl (by decide)⟩

/-- C7.  Empty first chunk of a 200 response: `download_tile` returns
`"empty"` immediately — exactly one attempt, no failure-log entry, no
temporary file left, destination untouched — and `"empty"` is distinct
from `"failed"`. -/
theorem empty_body_immediate (z x y hr : Nat) (env : Nat → Attempt) (fs : FS)
    (r : RawResponse) (hfs : tile_exists_ok fs = false)
    (h0 : (env 0).fetch = FetchBehavior.returns r)
    (hst : r.status_code = 200) (hch : r.body.headD [] = []) :
    download_tile z x y hr env fs = ⟨"empty", ⟨fs.destContent, false⟩, 1, []⟩ ∧
      "empty" ≠ "failed" := by
  refine ⟨?_, by decide⟩
  have hloop := dtLoop_return attemptStep env hr 0 hr none fs "empty" none
    ⟨fs.destContent, false⟩ (attemptStep_empty (env 0) r h0 hst hch none fs)
  exact download_tile_early z x y hr env fs _ _ _ _ hfs hloop

/-- C7 witness: an immediately-empty 200 stream (with a stale `.part` file
on disk) yields `"empty"`, one attempt, no log line, and the temp file
removed. -/
theorem empty_body_immediate_witness :
    download_tile 1 2 3 3 (fun _ => ⟨.returns ⟨200, some "x", []⟩, none⟩) ⟨none, true⟩ =
      ⟨"empty", ⟨none, false⟩, 1, []⟩ ∧ "empty" ≠ "failed" :=
  empty_body_immediate 1 2 3 3 (fun _ => ⟨.returns ⟨200, some "x", []⟩, none⟩)
    ⟨none, true⟩ ⟨200, some "x", []⟩ (by decide) rfl rfl rfl

/-- C4.  Idempotent skip: a present, non-empty destination makes
`download_tile` return `"skipped"` with zero attempts (independent of the
network environment), and a `"saved"` run leaves the store in a state where
any re-run over the same coordinate is `"skipped"` with zero attempts. -/
theorem idempotent_skip (z x y hr : Nat) (env : Nat → Attempt) (fs : FS) :
    (tile_exists_ok fs = true →
       download_tile z x y hr env fs = ⟨"skipped", fs, 0, []⟩) ∧
    ((download_tile z x y hr env fs).outcome = "saved" →
       ∀ (w v u hr' : Nat) (env' : Nat → Attempt),
         download_tile w v u hr' env' (download_tile z x y hr env fs).fs =
           ⟨"skipped", (download_tile z x y hr env fs).fs, 0, []⟩) := by
  constructor
  · intro h
    simp [download_tile, h]
  · intro hsaved w v u hr' env'
    by_cases hfs : tile_exists_ok fs = true
    · have hd : download_tile z x y hr env fs = ⟨"skipped", fs, 0, []⟩ := by
        simp [download_tile, hfs]
      rw [hd] at hsaved
      have hss : ("skipped" : String) = "saved" := hsaved
      exact absurd hss (by decide)
    · have hfs' : tile_exists_ok fs = false := by simpa using hfs
      rcases hL : dtLoop attemptStep env hr 0 (hr + 1) none fs with ⟨e1, l1, f1, c1⟩
      cases e1 with
      | none =>
          rw [download_tile_exhaust z x y hr env fs l1 f1 c1 hfs' hL] at hsaved
          have hss : ("failed" : String) = "saved" := hsaved
          exact absurd hss (by decide)
      | some o =>
          have hd := download_tile_early z x y hr env fs o l1 f1 c1 hfs' hL
          rw [hd] at hsaved
          obtain rfl : o = "saved" := hsaved
          obtain ⟨i, r, hret, hst, hch, hfsr⟩ :=
            (dtLoop_saved_dest env hr (hr + 1) 0 none fs).1 (by rw [hL])
          rw [hL] at hfsr
          obtain rfl : f1 = ⟨some r.body.flatten, false⟩ := hfsr
          have hlen : 0 < r.body.flatten.length := by
            cases hb : r.body with
            | nil =>
                rw [hb] at hch
                exact absurd rfl hch
            | cons c t =>
                have hc : c ≠ [] := by
                  rw [hb] at hch
                  simpa using hch
                rw [List.flatten_cons, List.length_append]
                have := List.length_pos.mpr hc
                omega
          have hex : tile_exists_ok (⟨some r.body.flatten, false⟩ : FS) = true :=
            decide_eq_true hlen
          rw [hd]
          simp [download_tile, hex]

/-- C4 witness: a present non-empty tile is skipped with zero attempts;
after a `"saved"` run, the re-run over the resulting store is skipped with
zero attempts. -/
theorem idempotent_skip_witness :
    download_tile 1 2 3 3 (fun _ => ⟨.raises "boom", none⟩) ⟨some [7], false⟩ =
      ⟨"skipped", ⟨some [7], false⟩, 0, []⟩ ∧
    download_tile 9 9 9 3 (fun _ => ⟨.raises "boom", none⟩)
        (download_tile 1 2 3 3 (fun _ => ⟨.returns ⟨200, none, [[80, 75]]⟩, none⟩)
          ⟨none, false⟩).fs =
      ⟨"skipped",
       (download_tile 1 2 3 3 (fun _ => ⟨.returns ⟨200, none, [[80, 75]]⟩, none⟩)
         ⟨none, false⟩).fs, 0, []⟩ :=
  ⟨(idempotent_skip 1 2 3 3 (fun _ => ⟨.raises "boom", none⟩) ⟨some [7], false⟩).1
      (by decide),
   (idempotent_skip 1 2 3 3 (fun _ => ⟨.returns ⟨200, none, [[80, 75]]⟩, none⟩)
      ⟨none, false⟩).2 (by decide) 9 9 9 3 (fun _ => ⟨.raises "boom", none⟩)⟩

/-- C5.  Atomic publish with cleanup on error: a streaming exception makes
the iteration remove the partial temporary file, leave the destination
untouched and record `io_or_stream:<detail>`; any run that does not end
`"saved"` leaves the destination content unchanged; and a `"saved"` run
publishes exactly the fully streamed body of one attempt's response, with
the temporary file gone. -/
theorem stream_error_cleanup_atomic_publish :
    (∀ (a : Attempt) (last : Option String) (fs : FS) (r : RawResponse) (e : String),
       a.fetch = FetchBehavior.returns r → r.status_code = 200 →
       r.body.headD [] ≠ [] → looks_like_html_or_json (r.body.headD []) = false →
       a.streamErr = some e →
       attemptStep a last fs =
         (none, some ("io_or_stream:" ++ e), ⟨fs.destContent, false⟩)) ∧
    (∀ (z x y hr : Nat) (env : Nat → Attempt) (fs : FS),
       (download_tile z x y hr env fs).outcome ≠ "saved" →
       (download_tile z x y hr env fs).fs.destContent = fs.destContent) ∧
    (∀ (z x y hr : Nat) (env : Nat → Attempt) (fs : FS),
       (download_tile z x y hr env fs).outcome = "saved" →
       ∃ i r, (env i).fetch = FetchBehavior.returns r ∧
         (download_tile z x y hr env fs).fs = ⟨some r.body.flatten, false⟩) := by
  refine ⟨?_, ?_, ?_⟩
  · intro a last fs r e h hst hch hlooks hse
    exact attemptStep_ioerr a r e h hst hch hlooks hse last fs
  · intro z x y hr env fs hout
    by_cases hfs : tile_exists_ok fs = true
    · simp [download_tile, hfs]
    · have hfs' : tile_exists_ok fs = false := by simpa using hfs
      rcases hL : dtLoop attemptStep env hr 0 (hr + 1) none fs with ⟨e1, l1, f1, c1⟩
      cases e1 with
      | none =>
          rw [download_tile_exhaust z x y hr env fs l1 f1 c1 hfs' hL]
          have h2 := (dtLoop_saved_dest env hr (hr + 1) 0 none fs).2 (by rw [hL]; simp)
          rw [hL] at h2
          exact h2
      | some o =>
          have hd := download_tile_early z x y hr env fs o l1 f1 c1 hfs' hL
          rw [hd] at hout ⊢
          have hne : o ≠ "saved" := fun hx => hout hx
          have h2 := (dtLoop_saved_dest env hr (hr + 1) 0 none fs).2
            (by rw [hL]; exact fun hx => hne (by simpa using hx))
          rw [hL] at h2
          exact h2
  · intro z x y hr env fs hout
    by_cases hfs : tile_exists_ok fs = true
    · have hd : download_tile z x y hr env fs = ⟨"skipped", fs, 0, []⟩ := by
        simp [download_tile, hfs]
      rw [hd] at hout
      have hss : ("skipped" : String) = "saved" := hout
      exact absurd hss (by decide)
    · have hfs' : tile_exists_ok fs = false := by simpa using hfs
      rcases hL : dtLoop attemptStep env hr 0 (hr + 1) none fs with ⟨e1, l1, f1, c1⟩
      cases e1 with
      | none =>
          rw [download_tile_exhaust z x y hr env fs l1 f1 c1 hfs' hL] at hout
          have hss : ("failed" : String) = "saved" := hout
          exact absurd hss (by decide)
      | some o =>
          have hd := download_tile_early z x y hr env fs o l1 f1 c1 hfs' hL
          rw [hd] at hout ⊢
          obtain rfl : o = "saved" := hout
          obtain ⟨i, r, hret, hst, hch, hfsr⟩ :=
            (dtLoop_saved_dest env hr (hr + 1) 0 none fs).1 (by rw [hL])
          rw [hL] at hfsr
          exact ⟨i, r, hret, hfsr⟩

/-- C5 witness: a streaming error cleans up and records its reason; a
failed run leaves the destination untouched; a saved run publishes the
streamed body. -/
theorem stream_error_cleanup_atomic_publish_witness :
    attemptStep ⟨.returns ⟨200, some "x", [[80], [75]]⟩, some "disk"⟩ none
        ⟨some [7], true⟩ =
      (none, some "io_or_stream:disk", ⟨some [7], false⟩) ∧
    (download_tile 1 2 3 3 (fun _ => ⟨.raises "boom", none⟩) ⟨none, false⟩).fs.destContent =
      none ∧
    ∃ i r,
      ((fun _ => ⟨.returns ⟨200, none, [[80, 75]]⟩, none⟩ : Nat → Attempt) i).fetch =
        FetchBehavior.returns r ∧
      (download_tile 1 2 3 3 (fun _ => ⟨.returns ⟨200, none, [[80, 75]]⟩, none⟩)
        ⟨none, false⟩).fs = ⟨some r.body.flatten, false⟩ :=
  ⟨stream_error_cleanup_atomic_publish.1 ⟨.returns ⟨200, some "x", [[80], [75]]⟩, some "disk"⟩
      none ⟨some [7], true⟩ ⟨200, some "x", [[80], [75]]⟩ "disk" rfl rfl (by decide)
      (by decide) rfl,
   stream_error_cleanup_atomic_publish.2.1 1 2 3 3 (fun _ => ⟨.raises "boom", none⟩)
      ⟨none, false⟩ (by decide),
   stream_error_cleanup_atomic_publish.2.2 1 2 3 3
      (fun _ => ⟨.returns ⟨200, none, [[80, 75]]⟩, none⟩) ⟨none, false⟩ (by decide)⟩

/-- C6 counterexample.  A 200 response with declared Content-Type
`text/plain` (rejected by `is_bad_mime`) and a body that does not sniff as
HTML/JSON is nonetheless persisted as a tile: `download_tile` never calls
`is_bad_mime`, so the claim that such a payload is treated as invalid is
false. -/
theorem content_type_not_validated_cex :
    download_tile 1 2 3 3
        (fun _ => ⟨.returns ⟨200, some "text/plain", [[80, 75, 3, 4]]⟩, none⟩)
        ⟨none, false⟩ =
      ⟨"saved", ⟨some [80, 75, 3, 4], false⟩, 1, []⟩ ∧
    is_bad_mime "text/plain" = true ∧
    looks_like_html_or_json [80, 75, 3, 4] = false := by
  refine ⟨by decide, by decide, by decide⟩

/-- C6 amended.  `is_bad_mime` does classify every content type outside
the two accepted binary types as bad, but `download_tile` never consults
it: a 200 response whose non-empty first chunk does not sniff as HTML/JSON
is streamed and persisted regardless of the declared Content-Type. -/
theorem saved_regardless_of_content_type (z x y hr : Nat) (env : Nat → Attempt)
    (fs : FS) (r : RawResponse)
    (hfs : tile_exists_ok fs = false)
    (h0 : (env 0).fetch = FetchBehavior.returns r)
    (hst : r.status_code = 200) (hch : r.body.headD [] ≠ [])
    (hlooks : looks_like_html_or_json (r.body.headD []) = false)
    (hse : (env 0).streamErr = none) :
    download_tile z x y hr env fs = ⟨"saved", ⟨some r.body.flatten, false⟩, 1, []⟩ ∧
    (∀ ct, ct ≠ "" →
      (is_bad_mime ct = false ↔
        ACCEPTABLE_CT.contains (strLower (pyStrip (splitSemiHead ct))) = true)) := by
  constructor
  · have hloop := dtLoop_return attemptStep env hr 0 hr none fs "saved" none
      ⟨some r.body.flatten, false⟩ (attemptStep_save (env 0) r h0 hst hch hlooks hse none fs)
    exact download_tile_early z x y hr env fs _ _ _ _ hfs hloop
  · intro ct hct
    simp [is_bad_mime, hct]

/-- C6 amended witness: the `text/plain` payload of the counterexample is
persisted, and `is_bad_mime` correctly classifies content types. -/
theorem saved_regardless_of_content_type_witness :
    download_tile 1 2 3 3
        (fun _ => ⟨.returns ⟨200, some "text/plain", [[80, 75, 3, 4]]⟩, none⟩)
        ⟨none, false⟩ =
      ⟨"saved", ⟨some [80, 75, 3, 4], false⟩, 1, []⟩ ∧
    (∀ ct, ct ≠ "" →
      (is_bad_mime ct = false ↔
        ACCEPTABLE_CT.contains (strLower (pyStrip (splitSemiHead ct))) = true)) :=
  saved_regardless_of_content_type 1 2 3 3
    (fun _ => ⟨.returns ⟨200, some "text/plain", [[80, 75, 3, 4]]⟩, none⟩)
    ⟨none, false⟩ ⟨200, some "text/plain", [[80, 75, 3, 4]]⟩
    (by decide) rfl rfl (by decide) (by decide) rfl

/-- C9.  The two success branches of the source (`< 100` bytes versus the
rest) are identical, so `download_tile` equals the spec-side
`download_tile_uniform` that performs no size test. -/
theorem small_file_branch_equiv (z x y hr : Nat) (env : Nat → Attempt) (fs : FS) :
    download_tile z x y hr env fs = download_tile_uniform z x y hr env fs := by
  have hstep : attemptStep = attemptStepUniform := by
    funext a last fs
    rcases a with ⟨f, se⟩
    cases f with
    | raises e => rfl
    | returns r =>
        unfold attemptStep attemptStepUniform
        rcases hf : _fetch_once r with ⟨ro, err, cto⟩
        simp only [hf]
        cases ro with
        | none => rfl
        | some rr =>
            by_cases hch : rr.body.headD [] = []
            · simp [hch]
            · by_cases hlooks : looks_like_html_or_json (rr.body.headD []) = true
              · simp [hch, hlooks]
              · cases se with
                | some e => simp [hch, hlooks]
                | none => simp [hch, hlooks]
  unfold download_tile download_tile_uniform
  rw [hstep]

/-- C10.  Strict-200 gate: `_fetch_once` yields no response and the reason
`status:<code>` for every non-200 status (201, 204, ... included), and a
`"saved"` or `"empty"` outcome of `download_tile` requires some attempt to
have received a response with status exactly 200. -/
theorem strict_200_gate :
    (∀ r : RawResponse, r.status_code ≠ 200 →
       _fetch_once r = (none, some ("status:" ++ toString r.status_code), none)) ∧
    (∀ (z x y hr : Nat) (env : Nat → Attempt) (fs : FS),
       ((download_tile z x y hr env fs).outcome = "saved" ∨
        (download_tile z x y hr env fs).outcome = "empty") →
       ∃ i r, (env i).fetch = FetchBehavior.returns r ∧ r.status_code = 200) := by
  constructor
  · intro r h
    simp [_fetch_once, h]
  · intro z x y hr env fs hout
    by_cases hfs : tile_exists_ok fs = true
    · have hd : download_tile z x y hr env fs = ⟨"skipped", fs, 0, []⟩ := by
        simp [download_tile, hfs]
      rw [hd] at hout
      rcases hout with hss | hss
      · have h1 : ("skipped" : String) = "saved" := hss
        exact absurd h1 (by decide)
      · have h1 : ("skipped" : String) = "empty" := hss
        exact absurd h1 (by decide)
    · have hfs' : tile_exists_ok fs = false := by simpa using hfs
      rcases hL : dtLoop attemptStep env hr 0 (hr + 1) none fs with ⟨e1, l1, f1, c1⟩
      cases e1 with
      | none =>
          rw [download_tile_exhaust z x y hr env fs l1 f1 c1 hfs' hL] at hout
          rcases hout with hss | hss
          · have h1 : ("failed" : String) = "saved" := hss
            exact absurd h1 (by decide)
          · have h1 : ("failed" : String) = "empty" := hss
            exact absurd h1 (by decide)
      | some o =>
          rw [download_tile_early z x y hr env fs o l1 f1 c1 hfs' hL] at hout
          exact (dtLoop_early_200 env hr (hr + 1) 0 none fs o (by rw [hL])).2

/-- C10 witness: a 503 is surfaced as `status:503` with no stream, and a
`"saved"` run exhibits its 200 attempt. -/
theorem strict_200_gate_witness :
    _fetch_once ⟨503, none, []⟩ = (none, some "status:503", none) ∧
    ∃ i r,
      ((fun _ => ⟨.returns ⟨200, none, [[80, 75]]⟩, none⟩ : Nat → Attempt) i).fetch =
        FetchBehavior.returns r ∧ r.status_code = 200 :=
  ⟨strict_200_gate.1 ⟨503, none, []⟩ (by decide),
   strict_200_gate.2 1 2 3 3 (fun _ => ⟨.returns ⟨200, none, [[80, 75]]⟩, none⟩)
     ⟨none, false⟩ (Or.inl (by decide))⟩

/-- C3.  Poisoning detection: `looks_like_html_or_json` holds exactly when
the whitespace-trimmed, ASCII-lowercased body starts with `<!doctype`,
`<html`, or `{` — the `take 64` window in the source is immaterial because
each marker is shorter than 64 bytes, and the declared Content-Type plays
no role (the function only sees the bytes). -/
theorem poisoning_detection_iff_markers (b : List Nat) :
    looks_like_html_or_json b =
      (DOCTYPE_BYTES.isPrefixOf ((b.dropWhile isPySpace).map byteLower) ||
       HTML_BYTES.isPrefixOf ((b.dropWhile isPySpace).map byteLower) ||
       LBRACE_BYTES.isPrefixOf ((b.dropWhile isPySpace).map byteLower)) := by
  simp only [looks_like_html_or_json]
  rw [List.map_take]
  rw [isPrefixOf_take DOCTYPE_BYTES _ 64 (by decide),
    isPrefixOf_take HTML_BYTES _ 64 (by decide),
    isPrefixOf_take LBRACE_BYTES _ 64 (by decide)]

/-- C8.  Storage-mapping determinism and injectivity: `tile_path` is a pure
function and two coordinate triples map to the same path exactly when they
are equal; in particular distinct coordinates always receive distinct
paths. -/
theorem tile_path_injective (z x y w v u : Nat) :
    tile_path z x y = tile_path w v u ↔ z = w ∧ x = v ∧ y = u := by
  constructor
  · intro h
    have hd := congrArg String.data h
    simp only [tile_path, str_data_append, toStr_natRepr,
      show ("/" : String).data = ['\x2f'] from rfl, List.singleton_append] at hd
    obtain ⟨-, h1⟩ := sep_split SAVE_DIR.data SAVE_DIR.data _ _ hd (by decide) (by decide)
    obtain ⟨hz, h2⟩ := sep_split _ _ _ _ h1 (natRepr_no_slash z) (natRepr_no_slash w)
    obtain ⟨hx, h3⟩ := sep_split _ _ _ _ h2 (natRepr_no_slash x) (natRepr_no_slash v)
    have hy := List.append_cancel_right h3
    exact ⟨natRepr_inj (String.ext hz), natRepr_inj (String.ext hx),
      natRepr_inj (String.ext hy)⟩
  · rintro ⟨rfl, rfl, rfl⟩
    rfl

end ZipData
